import Mathlib

/-!
Verification of the workflow-driven Git synchronization engine of
`git-webhook.py` (Pterodactyl git webhook).

The engine shells out to `docker exec` through `subprocess.run`.  We model
the external runtime as an environment `Env σ`: a function that, given the
current external state and an argument vector, returns either the completed
process (exit code, stdout, stderr) or a raised exception (modelled as
`Except.error` with the exception message), together with the successor
state.  Every embedded function threads this state explicitly and also
returns a trace of the events it performed: `Ev.run c` for each raw
subprocess invocation with argv `c`, and an `Ev.op…` marker at the entry of
each `GitOperations` method, so that theorems can speak about which
operations and commands a run performs.
-/

namespace GitWebhook

/-- The result of one completed `subprocess.run` call. -/
structure ExecResult where
  returncode : Int
  stdout : String
  stderr : String
deriving DecidableEq, Repr

/-- Decidable equality of exception-or-result values. -/
instance {ε α : Type} [DecidableEq ε] [DecidableEq α] :
    DecidableEq (Except ε α) := fun a b =>
  match a, b with
  | .error e1, .error e2 =>
    if h : e1 = e2 then .isTrue (by rw [h]) else .isFalse (by simp [h])
  | .error _, .ok _ => .isFalse (by simp)
  | .ok _, .error _ => .isFalse (by simp)
  | .ok r1, .ok r2 =>
    if h : r1 = r2 then .isTrue (by rw [h]) else .isFalse (by simp [h])

/-- The external runtime: one `subprocess.run` invocation, which either
completes with an `ExecResult` or raises (an `Except.error` carrying the
exception message), and moves the external state. -/
def Env (σ : Type) := σ → List String → Except String ExecResult × σ

/-- Whether the first character list is a prefix of the second. -/
def list_starts_with : List Char → List Char → Bool
  | [], _ => true
  | _ :: _, [] => false
  | p :: ps, c :: cs => p == c && list_starts_with ps cs

/-- Whether the first character list occurs inside the second. -/
def list_infix : List Char → List Char → Bool
  | pat, [] => pat.isEmpty
  | pat, c :: cs => list_starts_with pat (c :: cs) || list_infix pat cs

/-- Python substring test `pat in s`. -/
def strContains (s pat : String) : Bool := list_infix pat.data s.data

/-- Python `str.strip()`: remove leading and trailing whitespace. -/
def pyStrip (s : String) : String :=
  ⟨((s.data.dropWhile Char.isWhitespace).reverse.dropWhile
      Char.isWhitespace).reverse⟩

/-- The argv `["docker", "exec", container] + args` built by
`run_docker_command`. -/
def docker_cmd (container : String) (args : List String) : List String :=
  ["docker", "exec", container] ++ args

/-- Remediation argv for the "dubious ownership" signature. -/
def safe_cmd (repos_dir container : String) : List String :=
  ["docker", "exec", container, "git", "config", "--global", "--add",
    "safe.directory", repos_dir]

/-- Remediation argv for the "permission denied" signature. -/
def fix_cmd (repos_dir container : String) : List String :=
  ["docker", "exec", "--user", "root", container, "chown", "-R", "988:988",
    repos_dir]

/-- Remediation argv for the "Need to specify how to reconcile divergent
branches" signature. -/
def pull_config_cmd (container : String) : List String :=
  ["docker", "exec", container, "git", "config", "--global", "pull.rebase",
    "true"]

/-- Events observed during a run: entry into a `GitOperations` method, or a
raw subprocess invocation. -/
inductive Ev where
  | opHasChanges (path : String)
  | opSetupGitUser (path : String)
  | opAddAll (path : String)
  | opCommit (path message : String)
  | opPull (path branch : String)
  | opPush (path branch : String)
  | opResetHard (path branch : String)
  | opSubmoduleUpdate (path : String) (use_remote : Bool)
  | opCheckoutAndMerge (path branch : String)
  | run (cmd : List String)
deriving DecidableEq, Repr

/-- Wrap a raw-command trace as events. -/
def rawEv (t : List (List String)) : List Ev := t.map Ev.run

/-- `GitOperations.run_docker_command`: execute a command inside a Docker
container; on a failure whose stderr matches a known signature, apply the
paired remediation.  For "dubious ownership" and divergent-branch
reconciliation the original command is re-issued once after the
remediation; for "permission denied" the code applies the `chown` fix and
returns the original (failed) result without re-issuing the command. -/
def run_docker_command {σ : Type} (E : Env σ) (repos_dir container : String)
    (args : List String) (s : σ) :
    Except String ExecResult × σ × List (List String) :=
  let cmd := docker_cmd container args
  match E s cmd with
  | (.error e, s1) => (.error e, s1, [cmd])
  | (.ok result, s1) =>
    if result.returncode != 0 && result.stderr != "" &&
        strContains result.stderr "dubious ownership" then
      match E s1 (safe_cmd repos_dir container) with
      | (.error e, s2) => (.error e, s2, [cmd, safe_cmd repos_dir container])
      | (.ok _, s2) =>
        match E s2 cmd with
        | (.error e, s3) =>
          (.error e, s3, [cmd, safe_cmd repos_dir container, cmd])
        | (.ok result2, s3) =>
          (.ok result2, s3, [cmd, safe_cmd repos_dir container, cmd])
    else if result.returncode != 0 && result.stderr != "" &&
        strContains result.stderr "permission denied" then
      match E s1 (fix_cmd repos_dir container) with
      | (.error e, s2) => (.error e, s2, [cmd, fix_cmd repos_dir container])
      | (.ok _, s2) => (.ok result, s2, [cmd, fix_cmd repos_dir container])
    else if result.returncode != 0 && result.stderr != "" &&
        strContains result.stderr
          "Need to specify how to reconcile divergent branches" then
      match E s1 (pull_config_cmd container) with
      | (.error e, s2) => (.error e, s2, [cmd, pull_config_cmd container])
      | (.ok _, s2) =>
        match E s2 cmd with
        | (.error e, s3) =>
          (.error e, s3, [cmd, pull_config_cmd container, cmd])
        | (.ok result2, s3) =>
          (.ok result2, s3, [cmd, pull_config_cmd container, cmd])
    else
      (.ok result, s1, [cmd])

/-- The `GitOperations` object: the repository root used by the remediation
commands, and the Git identity to configure before committing. -/
structure GitOperations where
  repos_dir : String
  git_user_name : String
  git_user_email : String
deriving Repr

/-- Argv (after `docker exec <container>`) of the status check used by
`has_changes`. -/
def status_args (path : String) : List String :=
  ["git", "-C", path, "status", "--porcelain", "-uno"]

/-- Argv of `git config user.name`. -/
def config_name_args (path name : String) : List String :=
  ["git", "-C", path, "config", "user.name", name]

/-- Argv of `git config user.email`. -/
def config_email_args (path email : String) : List String :=
  ["git", "-C", path, "config", "user.email", email]

/-- Argv of `git add --all`. -/
def add_args (path : String) : List String :=
  ["git", "-C", path, "add", "--all"]

/-- Argv of `git commit -am <message>`. -/
def commit_args (path message : String) : List String :=
  ["git", "-C", path, "commit", "-am", message]

/-- Argv of `git pull origin <branch>`. -/
def pull_args (path branch : String) : List String :=
  ["git", "-C", path, "pull", "origin", branch]

/-- Argv of `git push origin <branch>`. -/
def push_args (path branch : String) : List String :=
  ["git", "-C", path, "push", "origin", branch]

/-- Argv of `git reset --hard origin/<branch>`. -/
def reset_args (path branch : String) : List String :=
  ["git", "-C", path, "reset", "--hard", "origin/" ++ branch]

/-- Argv of `git clean -fd`. -/
def clean_args (path : String) : List String :=
  ["git", "-C", path, "clean", "-fd"]

/-- Argv of `git submodule update --init --recursive`, plus
`--remote --force` when `use_remote`. -/
def submodule_update_args (path : String) (use_remote : Bool) : List String :=
  ["git", "-C", path, "submodule", "update", "--init", "--recursive"] ++
    (if use_remote then ["--remote", "--force"] else [])

/-- Argv of `git checkout <branch>`. -/
def checkout_args (path branch : String) : List String :=
  ["git", "-C", path, "checkout", branch]

/-- Argv of `git merge HEAD@{1} <branch>`. -/
def merge_args (path branch : String) : List String :=
  ["git", "-C", path, "merge", "HEAD@{1}", branch]

/-- `GitOperations.setup_git_user`: set the Git user name and email; fails
if either sub-call fails. -/
def setup_git_user {σ : Type} (G : GitOperations) (E : Env σ)
    (container path : String) (s : σ) :
    Except String (Bool × String) × σ × List Ev :=
  let o1 := run_docker_command E G.repos_dir container
      (config_name_args path G.git_user_name) s
  match o1.1 with
  | .error e => (.error e, o1.2.1, Ev.opSetupGitUser path :: rawEv o1.2.2)
  | .ok result_name =>
    if result_name.returncode != 0 then
      (.ok (false, "Failed to set git user.name: " ++ result_name.stderr),
        o1.2.1, Ev.opSetupGitUser path :: rawEv o1.2.2)
    else
      let o2 := run_docker_command E G.repos_dir container
          (config_email_args path G.git_user_email) o1.2.1
      match o2.1 with
      | .error e =>
        (.error e, o2.2.1,
          Ev.opSetupGitUser path :: (rawEv o1.2.2 ++ rawEv o2.2.2))
      | .ok result_email =>
        if result_email.returncode != 0 then
          (.ok (false,
              "Failed to set git user.email: " ++ result_email.stderr),
            o2.2.1, Ev.opSetupGitUser path :: (rawEv o1.2.2 ++ rawEv o2.2.2))
        else
          (.ok (true, "Git user configured as " ++ G.git_user_name ++ " <" ++
              G.git_user_email ++ ">"),
            o2.2.1, Ev.opSetupGitUser path :: (rawEv o1.2.2 ++ rawEv o2.2.2))

/-- `GitOperations.has_changes`: `git status --porcelain -uno`; true iff the
stripped stdout is non-empty and the exit code is zero. -/
def has_changes {σ : Type} (G : GitOperations) (E : Env σ)
    (container path : String) (s : σ) : Except String Bool × σ × List Ev :=
  let o := run_docker_command E G.repos_dir container (status_args path) s
  match o.1 with
  | .error e => (.error e, o.2.1, Ev.opHasChanges path :: rawEv o.2.2)
  | .ok result =>
    (.ok (pyStrip result.stdout != "" && result.returncode == 0),
      o.2.1, Ev.opHasChanges path :: rawEv o.2.2)

/-- `GitOperations.add_all`: `git add --all`. -/
def add_all {σ : Type} (G : GitOperations) (E : Env σ)
    (container path : String) (s : σ) :
    Except String (Bool × String) × σ × List Ev :=
  let o := run_docker_command E G.repos_dir container (add_args path) s
  match o.1 with
  | .error e => (.error e, o.2.1, Ev.opAddAll path :: rawEv o.2.2)
  | .ok result =>
    if result.returncode != 0 then
      (.ok (false, "Add failed: " ++ result.stderr),
        o.2.1, Ev.opAddAll path :: rawEv o.2.2)
    else
      (.ok (true, "All changes added successfully"),
        o.2.1, Ev.opAddAll path :: rawEv o.2.2)

/-- `GitOperations.commit`: a no-op success when `has_changes` is false;
otherwise configure identity, stage everything, then `git commit -am`. -/
def commit {σ : Type} (G : GitOperations) (E : Env σ)
    (container path message : String) (s : σ) :
    Except String (Bool × String) × σ × List Ev :=
  let o1 := has_changes G E container path s
  match o1.1 with
  | .error e => (.error e, o1.2.1, Ev.opCommit path message :: o1.2.2)
  | .ok hasCh =>
    if !hasCh then
      (.ok (true, "No changes to commit"),
        o1.2.1, Ev.opCommit path message :: o1.2.2)
    else
      let o2 := setup_git_user G E container path o1.2.1
      match o2.1 with
      | .error e =>
        (.error e, o2.2.1, Ev.opCommit path message :: (o1.2.2 ++ o2.2.2))
      | .ok su =>
        if !su.1 then
          (.ok (false, "Git user setup failed: " ++ su.2),
            o2.2.1, Ev.opCommit path message :: (o1.2.2 ++ o2.2.2))
        else
          let o3 := add_all G E container path o2.2.1
          match o3.1 with
          | .error e =>
            (.error e, o3.2.1,
              Ev.opCommit path message :: (o1.2.2 ++ o2.2.2 ++ o3.2.2))
          | .ok ad =>
            if !ad.1 then
              (.ok (false, "Add failed: " ++ ad.2),
                o3.2.1,
                Ev.opCommit path message :: (o1.2.2 ++ o2.2.2 ++ o3.2.2))
            else
              let o4 := run_docker_command E G.repos_dir container
                  (commit_args path message) o3.2.1
              match o4.1 with
              | .error e =>
                (.error e, o4.2.1,
                  Ev.opCommit path message ::
                    (o1.2.2 ++ o2.2.2 ++ o3.2.2 ++ rawEv o4.2.2))
              | .ok result =>
                if result.returncode != 0 then
                  (.ok (false, "Commit failed: " ++ result.stderr),
                    o4.2.1,
                    Ev.opCommit path message ::
                      (o1.2.2 ++ o2.2.2 ++ o3.2.2 ++ rawEv o4.2.2))
                else
                  (.ok (true, "Commit successful"),
                    o4.2.1,
                    Ev.opCommit path message ::
                      (o1.2.2 ++ o2.2.2 ++ o3.2.2 ++ rawEv o4.2.2))

/-- `GitOperations.pull`: `git pull origin <branch>`. -/
def pull {σ : Type} (G : GitOperations) (E : Env σ)
    (container path branch : String) (s : σ) :
    Except String (Bool × String) × σ × List Ev :=
  let o := run_docker_command E G.repos_dir container
      (pull_args path branch) s
  match o.1 with
  | .error e => (.error e, o.2.1, Ev.opPull path branch :: rawEv o.2.2)
  | .ok result =>
    if result.returncode != 0 then
      (.ok (false,
          "Pull failed in container " ++ container ++ ": " ++ result.stderr),
        o.2.1, Ev.opPull path branch :: rawEv o.2.2)
    else
      (.ok (true, "Pull successful"),
        o.2.1, Ev.opPull path branch :: rawEv o.2.2)

/-- `GitOperations.push`: `git push origin <branch>`. -/
def push {σ : Type} (G : GitOperations) (E : Env σ)
    (container path branch : String) (s : σ) :
    Except String (Bool × String) × σ × List Ev :=
  let o := run_docker_command E G.repos_dir container
      (push_args path branch) s
  match o.1 with
  | .error e => (.error e, o.2.1, Ev.opPush path branch :: rawEv o.2.2)
  | .ok result =>
    if result.returncode != 0 then
      (.ok (false,
          "Push failed in container " ++ container ++ ": " ++ result.stderr),
        o.2.1, Ev.opPush path branch :: rawEv o.2.2)
    else
      (.ok (true, "Push successful"),
        o.2.1, Ev.opPush path branch :: rawEv o.2.2)

/-- `GitOperations.reset_hard`: `git reset --hard origin/<branch>` followed
by `git clean -fd`; both must succeed. -/
def reset_hard {σ : Type} (G : GitOperations) (E : Env σ)
    (container path branch : String) (s : σ) :
    Except String (Bool × String) × σ × List Ev :=
  let o1 := run_docker_command E G.repos_dir container
      (reset_args path branch) s
  match o1.1 with
  | .error e => (.error e, o1.2.1, Ev.opResetHard path branch :: rawEv o1.2.2)
  | .ok result_reset =>
    if result_reset.returncode != 0 then
      (.ok (false, "Reset failed in container " ++ container ++ ": " ++
          result_reset.stderr),
        o1.2.1, Ev.opResetHard path branch :: rawEv o1.2.2)
    else
      let o2 := run_docker_command E G.repos_dir container
          (clean_args path) o1.2.1
      match o2.1 with
      | .error e =>
        (.error e, o2.2.1,
          Ev.opResetHard path branch :: (rawEv o1.2.2 ++ rawEv o2.2.2))
      | .ok result_clean =>
        if result_clean.returncode != 0 then
          (.ok (false, "Clean failed in container " ++ container ++ ": " ++
              result_clean.stderr),
            o2.2.1,
            Ev.opResetHard path branch :: (rawEv o1.2.2 ++ rawEv o2.2.2))
        else
          (.ok (true, "Reset and clean successful"),
            o2.2.1,
            Ev.opResetHard path branch :: (rawEv o1.2.2 ++ rawEv o2.2.2))

/-- `GitOperations.submodule_update`: `git submodule update --init
--recursive` (plus `--remote --force` when `use_remote`); a failure whose
stderr contains "No url found for submodule path" is downgraded to a
success carrying the warning text. -/
def submodule_update {σ : Type} (G : GitOperations) (E : Env σ)
    (container path : String) (use_remote : Bool) (s : σ) :
    Except String (Bool × String) × σ × List Ev :=
  let o := run_docker_command E G.repos_dir container
      (submodule_update_args path use_remote) s
  match o.1 with
  | .error e =>
    (.error e, o.2.1, Ev.opSubmoduleUpdate path use_remote :: rawEv o.2.2)
  | .ok result =>
    if result.returncode != 0 then
      if strContains result.stderr "No url found for submodule path" then
        (.ok (true, "Submodule configuration issue in container " ++
            container ++ ": " ++ result.stderr),
          o.2.1, Ev.opSubmoduleUpdate path use_remote :: rawEv o.2.2)
      else
        (.ok (false, "Submodule update failed in container " ++ container ++
            ": " ++ result.stderr),
          o.2.1, Ev.opSubmoduleUpdate path use_remote :: rawEv o.2.2)
    else
      (.ok (true, "Submodule update successful"),
        o.2.1, Ev.opSubmoduleUpdate path use_remote :: rawEv o.2.2)

/-- `GitOperations.checkout_and_merge`: `git checkout <branch>` then
`git merge HEAD@{1} <branch>`. -/
def checkout_and_merge {σ : Type} (G : GitOperations) (E : Env σ)
    (container path branch : String) (s : σ) :
    Except String (Bool × String) × σ × List Ev :=
  let o1 := run_docker_command E G.repos_dir container
      (checkout_args path branch) s
  match o1.1 with
  | .error e =>
    (.error e, o1.2.1, Ev.opCheckoutAndMerge path branch :: rawEv o1.2.2)
  | .ok checkout_result =>
    if checkout_result.returncode != 0 then
      (.ok (false, "Checkout failed: " ++ checkout_result.stderr),
        o1.2.1, Ev.opCheckoutAndMerge path branch :: rawEv o1.2.2)
    else
      let o2 := run_docker_command E G.repos_dir container
          (merge_args path branch) o1.2.1
      match o2.1 with
      | .error e =>
        (.error e, o2.2.1,
          Ev.opCheckoutAndMerge path branch :: (rawEv o1.2.2 ++ rawEv o2.2.2))
      | .ok merge_result =>
        if merge_result.returncode != 0 then
          (.ok (false, "Merge failed: " ++ merge_result.stderr),
            o2.2.1,
            Ev.opCheckoutAndMerge path branch ::
              (rawEv o1.2.2 ++ rawEv o2.2.2))
        else
          (.ok (true, "Checkout and merge successful"),
            o2.2.1,
            Ev.opCheckoutAndMerge path branch ::
              (rawEv o1.2.2 ++ rawEv o2.2.2))

/-- A Git submodule configuration. -/
structure Submodule where
  path : String
  branch : String
deriving DecidableEq, Repr

/-- A workflow configuration: the boolean policy flags. -/
structure Workflow where
  description : String
  reset_on_changes : Bool
  pull : Bool
  commit : Bool
  push : Bool
  submodule_update : Bool
  submodule_remote : Bool
  submodule_commit_push : Bool
deriving DecidableEq, Repr

/-- A container configuration. -/
structure Container where
  id : String
  name : String
  branch : String
  workflow : String
  repos_dir : String
  submodules : List Submodule
deriving DecidableEq, Repr

/-- The part of the application configuration the engine reads. -/
structure Config where
  repos_dir : String
  containers : List Container
  workflows : String → Option Workflow
  git_user_name : String
  git_user_email : String
  commit_message_template : String

/-- `Config.get_workflow`: look a workflow up by name. -/
def Config.get_workflow (c : Config) (workflow_name : String) :
    Option Workflow :=
  c.workflows workflow_name

/-- Whether a string starts with the given character. -/
def str_head_is (s : String) (c : Char) : Bool :=
  match s.data with
  | [] => false
  | d :: _ => d == c

/-- Whether a string ends with the given character. -/
def str_last_is (s : String) (c : Char) : Bool :=
  match s.data.getLast? with
  | some d => d == c
  | none => false

/-- POSIX `os.path.join` for the two-argument case used by the processor. -/
def path_join (a b : String) : String :=
  if str_head_is b '/' then b
  else if str_last_is a '/' || a == "" then a ++ b
  else a ++ "/" ++ b

/-- The webhook processor: holds the configuration. -/
structure WebhookProcessor where
  config : Config

/-- The `GitOperations` instance the processor constructs from its
configuration. -/
def WebhookProcessor.git_ops (P : WebhookProcessor) : GitOperations :=
  ⟨P.config.repos_dir, P.config.git_user_name, P.config.git_user_email⟩

/-- `WebhookProcessor._get_commit_message`: instantiate the template at the
current timestamp (the timestamp is external input here). -/
def _get_commit_message (P : WebhookProcessor) (timestamp : String) :
    String :=
  P.config.commit_message_template.replace "{timestamp}" timestamp

/-- The `success, msg = op(...); if not success: return False, msg`
early-return pattern of the processor: run one (possibly skipped) step;
propagate an exception or a failure immediately, otherwise continue with
the step's state, accumulating its trace. -/
def op_step {σ : Type} (o : Except String (Bool × String) × σ × List Ev)
    (k : σ → Except String (Bool × String) × σ × List Ev) :
    Except String (Bool × String) × σ × List Ev :=
  match o.1 with
  | .error e => (.error e, o.2.1, o.2.2)
  | .ok r =>
    if !r.1 then (.ok (false, r.2), o.2.1, o.2.2)
    else
      let o2 := k o.2.1
      (o2.1, o2.2.1, o.2.2 ++ o2.2.2)

/-- `WebhookProcessor._process_submodule`: process one submodule according
to the workflow.  When the submodule has no changes and the workflow does
not commit/push submodules, only a pull is performed; otherwise the
commit / pull / checkout-and-merge-then-push steps run as gated by the
workflow flags, each failure returning immediately — except that a failing
checkout-and-merge merely skips the push. -/
def _process_submodule {σ : Type} (P : WebhookProcessor) (E : Env σ)
    (timestamp : String) (container : Container) (submodule : Submodule)
    (workflow : Workflow) (s : σ) :
    Except String (Bool × String) × σ × List Ev :=
  let full_path := path_join container.repos_dir submodule.path
  let o1 := has_changes P.git_ops E container.id full_path s
  match o1.1 with
  | .error e => (.error e, o1.2.1, o1.2.2)
  | .ok hasCh =>
    if !hasCh && !workflow.submodule_commit_push then
      let o2 := pull P.git_ops E container.id full_path submodule.branch
          o1.2.1
      match o2.1 with
      | .error e => (.error e, o2.2.1, o1.2.2 ++ o2.2.2)
      | .ok pr =>
        if !pr.1 then (.ok (false, pr.2), o2.2.1, o1.2.2 ++ o2.2.2)
        else
          (.ok (true, "Submodule pulled successfully"),
            o2.2.1, o1.2.2 ++ o2.2.2)
    else
      let rest :=
        op_step
          (if workflow.commit && hasCh then
            commit P.git_ops E container.id full_path
              (_get_commit_message P timestamp) o1.2.1
          else (.ok (true, ""), o1.2.1, ([] : List Ev)))
          (fun s2 =>
            op_step
              (if workflow.pull then
                pull P.git_ops E container.id full_path submodule.branch s2
              else (.ok (true, ""), s2, ([] : List Ev)))
              (fun s3 =>
                if workflow.push && workflow.submodule_commit_push then
                  let o4 := checkout_and_merge P.git_ops E container.id
                      full_path submodule.branch s3
                  match o4.1 with
                  | .error e => (.error e, o4.2.1, o4.2.2)
                  | .ok cm =>
                    if cm.1 then
                      let o5 := push P.git_ops E container.id full_path
                          submodule.branch o4.2.1
                      match o5.1 with
                      | .error e => (.error e, o5.2.1, o4.2.2 ++ o5.2.2)
                      | .ok pu =>
                        if !pu.1 then
                          (.ok (false, pu.2), o5.2.1, o4.2.2 ++ o5.2.2)
                        else
                          (.ok (true, "Submodule processed successfully"),
                            o5.2.1, o4.2.2 ++ o5.2.2)
                    else
                      (.ok (true, "Submodule processed successfully"),
                        o4.2.1, o4.2.2)
                else
                  (.ok (true, "Submodule processed successfully"), s3,
                    ([] : List Ev))))
      (rest.1, rest.2.1, o1.2.2 ++ rest.2.2)

/-- `WebhookProcessor._process_main_repo`: the main repository stage —
optional reset-on-changes, optional submodule update, optional commit,
optional pull, optional push, aborting on the first failure. -/
def _process_main_repo {σ : Type} (P : WebhookProcessor) (E : Env σ)
    (timestamp : String) (container : Container) (workflow : Workflow)
    (s : σ) : Except String (Bool × String) × σ × List Ev :=
  let o1 : Except String (Bool × String) × σ × List Ev :=
    if workflow.reset_on_changes then
      let h := has_changes P.git_ops E container.id container.repos_dir s
      match h.1 with
      | .error e => (.error e, h.2.1, h.2.2)
      | .ok hc =>
        if hc then
          let rr := reset_hard P.git_ops E container.id container.repos_dir
              container.branch h.2.1
          match rr.1 with
          | .error e => (.error e, rr.2.1, h.2.2 ++ rr.2.2)
          | .ok r =>
            if !r.1 then (.ok (false, r.2), rr.2.1, h.2.2 ++ rr.2.2)
            else (.ok (true, ""), rr.2.1, h.2.2 ++ rr.2.2)
        else (.ok (true, ""), h.2.1, h.2.2)
    else (.ok (true, ""), s, ([] : List Ev))
  op_step o1 (fun s1 =>
    op_step
      (if workflow.submodule_update && !container.submodules.isEmpty then
        submodule_update P.git_ops E container.id container.repos_dir
          workflow.submodule_remote s1
      else (.ok (true, ""), s1, ([] : List Ev)))
      (fun s2 =>
        op_step
          (if workflow.commit then
            commit P.git_ops E container.id container.repos_dir
              (_get_commit_message P timestamp) s2
          else (.ok (true, ""), s2, ([] : List Ev)))
          (fun s3 =>
            op_step
              (if workflow.pull then
                pull P.git_ops E container.id container.repos_dir
                  container.branch s3
              else (.ok (true, ""), s3, ([] : List Ev)))
              (fun s4 =>
                op_step
                  (if workflow.push then
                    push P.git_ops E container.id container.repos_dir
                      container.branch s4
                  else (.ok (true, ""), s4, ([] : List Ev)))
                  (fun s5 =>
                    (.ok (true, "Main repository processed successfully"),
                      s5, ([] : List Ev)))))))

/-- The submodule pass of `WebhookProcessor.process_container`: process the
submodules in declaration order; `some failMsg` signals the early return
produced by the first failing submodule. -/
def submodule_loop {σ : Type} (P : WebhookProcessor) (E : Env σ)
    (timestamp : String) (container : Container) (workflow : Workflow) :
    List Submodule → σ → Except String (Option String) × σ × List Ev
  | [], s => (.ok none, s, [])
  | sub :: rest, s =>
    let o := _process_submodule P E timestamp container sub workflow s
    match o.1 with
    | .error e => (.error e, o.2.1, o.2.2)
    | .ok r =>
      if !r.1 then
        (.ok (some ("Submodule " ++ sub.path ++ " failed: " ++ r.2)),
          o.2.1, o.2.2)
      else
        let o2 := submodule_loop P E timestamp container workflow rest o.2.1
        (o2.1, o2.2.1, o.2.2 ++ o2.2.2)

/-- The body of the `try` block of `WebhookProcessor.process_container`:
resolve the workflow, run the submodule pass when enabled, then the main
repository stage. -/
def process_container_body {σ : Type} (P : WebhookProcessor) (E : Env σ)
    (timestamp : String) (container : Container) (s : σ) :
    Except String (Bool × String) × σ × List Ev :=
  match P.config.get_workflow container.workflow with
  | none =>
    (.ok (false,
        "Workflow \x27" ++ container.workflow ++ "\x27 not found"), s, [])
  | some workflow =>
    let o1 :=
      if workflow.submodule_update && !container.submodules.isEmpty then
        submodule_loop P E timestamp container workflow
          container.submodules s
      else (.ok none, s, ([] : List Ev))
    match o1.1 with
    | .error e => (.error e, o1.2.1, o1.2.2)
    | .ok (some failMsg) => (.ok (false, failMsg), o1.2.1, o1.2.2)
    | .ok none =>
      let o2 := _process_main_repo P E timestamp container workflow o1.2.1
      match o2.1 with
      | .error e => (.error e, o2.2.1, o1.2.2 ++ o2.2.2)
      | .ok r =>
        if !r.1 then
          (.ok (false, "Main repo failed: " ++ r.2),
            o2.2.1, o1.2.2 ++ o2.2.2)
        else
          (.ok (true, "Container processed successfully"),
            o2.2.1, o1.2.2 ++ o2.2.2)

/-- `WebhookProcessor.process_container`: run the body and catch any
exception, converting it into an `ok=false` result for this container. -/
def process_container {σ : Type} (P : WebhookProcessor) (E : Env σ)
    (timestamp : String) (container : Container) (s : σ) :
    (Bool × String) × σ × List Ev :=
  match process_container_body P E timestamp container s with
  | (.error e, s1, t) =>
    ((false, "Error processing container " ++ container.name ++ ": " ++ e),
      s1, t)
  | (.ok r, s1, t) => (r, s1, t)

/-- The iteration of `WebhookProcessor.process_all_containers`: process the
containers in configuration order, stopping at the first failure. -/
def container_loop {σ : Type} (P : WebhookProcessor) (E : Env σ)
    (timestamp : String) : List Container → σ → (Bool × String) × σ × List Ev
  | [], s => ((true, "All containers processed successfully"), s, [])
  | c :: rest, s =>
    let o := process_container P E timestamp c s
    if !o.1.1 then
      ((false, "Container " ++ c.name ++ ": " ++ o.1.2), o.2.1, o.2.2)
    else
      let o2 := container_loop P E timestamp rest o.2.1
      (o2.1, o2.2.1, o.2.2 ++ o2.2.2)

/-- `WebhookProcessor.process_all_containers`: fail when no containers are
configured, otherwise iterate them in order. -/
def process_all_containers {σ : Type} (P : WebhookProcessor) (E : Env σ)
    (timestamp : String) (s : σ) : (Bool × String) × σ × List Ev :=
  if P.config.containers.isEmpty then
    ((false, "No containers configured"), s, [])
  else container_loop P E timestamp P.config.containers s

/-- Discriminator for commit-operation entry events. -/
def is_commit_ev : Ev → Bool
  | Ev.opCommit _ _ => true
  | _ => false

/-- A trace that never enters the `commit` operation. -/
def commit_free (tr : List Ev) : Prop := ∀ e ∈ tr, is_commit_ev e = false

/-- A completed result that failed with a "dubious ownership" stderr. -/
def persistent_dubious (x : Except String ExecResult) : Bool :=
  match x with
  | .ok r =>
    (r.returncode != 0) && (r.stderr != "") &&
      strContains r.stderr "dubious ownership"
  | .error _ => false

/-- A completed (non-raising) result. -/
def is_ok (x : Except String ExecResult) : Bool :=
  match x with
  | .ok _ => true
  | .error _ => false

/-- Concrete runtime whose first command fails with "permission denied" and
whose later commands succeed (the state counts the commands issued). -/
def envP : Env Nat := fun n _ =>
  if n == 0 then (.ok ⟨1, "", "permission denied"⟩, 1)
  else (.ok ⟨0, "ok", ""⟩, n + 1)

/-- Concrete runtime where every command except the safe-directory
remediation fails with a "dubious ownership" stderr, persistently. -/
def envD : Env Unit := fun _ cmd =>
  if cmd = safe_cmd "/repo" "c3" then (.ok ⟨0, "", ""⟩, ())
  else
    (.ok ⟨1, "", "fatal: detected dubious ownership in repository"⟩, ())

/-- Dev-style workflow used by the checkout-and-merge counterexample:
push and submodule commit/push on, commit and pull off. -/
def wf2 : Workflow := ⟨"", false, false, false, true, true, false, true⟩

/-- Container with two submodules for the checkout-and-merge
counterexample. -/
def cont2 : Container :=
  ⟨"c2", "n2", "b", "w", "/repo", [⟨"sub1", "b1"⟩, ⟨"sub2", "b2"⟩]⟩

/-- Configuration for the checkout-and-merge counterexample. -/
def cfg2 : Config :=
  ⟨"/repo", [cont2], fun n => if n = "w" then some wf2 else none,
    "u", "e", "m"⟩

/-- Processor for the checkout-and-merge counterexample. -/
def P2 : WebhookProcessor := ⟨cfg2⟩

/-- Concrete runtime where only the checkout of submodule `sub1` fails (with
a stderr matching no remediation signature); every other command
succeeds with a clean status. -/
def env2 : Env Unit := fun _ cmd =>
  if cmd = docker_cmd "c2" (checkout_args "/repo/sub1" "b1") then
    (.ok ⟨1, "", "boom"⟩, ())
  else (.ok ⟨0, "", ""⟩, ())

/-- Runtime where every command completes successfully with empty output. -/
def envW : Env Unit := fun _ _ => (.ok ⟨0, "", ""⟩, ())

/-- First container of the orchestrator witness; its workflow name resolves
to nothing, so its processor fails immediately. -/
def cW : Container := ⟨"cid1", "n1", "b", "w", "/r", []⟩

/-- Second container of the orchestrator witness. -/
def cW2 : Container := ⟨"cid2", "n2", "b", "w", "/r", []⟩

/-- Configuration with no workflows, for the orchestrator witness. -/
def cfgW : Config := ⟨"/r", [cW, cW2], fun _ => none, "u", "e", "m"⟩

/-- Processor for the orchestrator witness. -/
def PW : WebhookProcessor := ⟨cfgW⟩

/-- Runtime for the submodule-update witness: the update fails with a
"No url found for submodule path" stderr under `/r`, and with an
unrecognized stderr under `/q`. -/
def env5 : Env Unit := fun _ cmd =>
  if cmd = docker_cmd "c5" (submodule_update_args "/r" false) then
    (.ok ⟨1, "", "No url found for submodule path x"⟩, ())
  else if cmd = docker_cmd "c5" (submodule_update_args "/q" false) then
    (.ok ⟨1, "", "other error"⟩, ())
  else (.ok ⟨0, "", ""⟩, ())

/-- Runtime for the commit-idempotence witness: the state is a dirty flag;
the status check reports it without changing it, and a successful
`git commit -am` clears it. -/
def envC : Env Bool := fun s cmd =>
  if cmd = docker_cmd "c" (status_args "/r") then
    (.ok ⟨0, if s then "M x" else "", ""⟩, s)
  else if cmd = docker_cmd "c" (commit_args "/r" "m") then
    (.ok ⟨0, "", ""⟩, false)
  else (.ok ⟨0, "", ""⟩, s)

/-- Git operations object for the commit-idempotence witness. -/
def GC : GitOperations := ⟨"/g", "u", "e"⟩

/-- Main-style workflow: pull and submodule update only. -/
def wf7 : Workflow := ⟨"", false, true, false, false, true, false, false⟩

/-- Container with one submodule for the pull-only witness. -/
def cont7 : Container := ⟨"c7", "n7", "b", "w", "/r", [⟨"s1", "b1"⟩]⟩

/-- Configuration for the pull-only and never-commits witnesses. -/
def cfg7 : Config :=
  ⟨"/r", [cont7], fun n => if n = "w" then some wf7 else none, "u", "e", "m"⟩

/-- Processor for the pull-only and never-commits witnesses. -/
def P7 : WebhookProcessor := ⟨cfg7⟩

/-- Configuration with an empty container list. -/
def cfgE : Config := ⟨"/r", [], fun _ => none, "u", "e", "m"⟩

/-- Processor over the empty configuration. -/
def PE : WebhookProcessor := ⟨cfgE⟩

/-- Runtime where every command raises. -/
def envX : Env Unit := fun s _ => (.error "boom", s)

/-- Workflow that only pulls, for the exception-handling witness. -/
def wfX : Workflow := ⟨"", false, true, false, false, false, false, false⟩

/-- Container for the exception-handling witness. -/
def cX : Container := ⟨"cx", "nx", "b", "w", "/r", []⟩

/-- Configuration for the exception-handling witness. -/
def cfgX : Config :=
  ⟨"/r", [cX], fun n => if n = "w" then some wfX else none, "u", "e", "m"⟩

/-- Processor for the exception-handling witness. -/
def PX : WebhookProcessor := ⟨cfgX⟩

lemma run_docker_command_trace_shape {σ : Type} (E : Env σ)
    (rd cont : String) (args : List String) (s : σ) :
    (run_docker_command E rd cont args s).2.2 = [docker_cmd cont args] ∨
    (run_docker_command E rd cont args s).2.2 =
      [docker_cmd cont args, safe_cmd rd cont] ∨
    (run_docker_command E rd cont args s).2.2 =
      [docker_cmd cont args, safe_cmd rd cont, docker_cmd cont args] ∨
    (run_docker_command E rd cont args s).2.2 =
      [docker_cmd cont args, fix_cmd rd cont] ∨
    (run_docker_command E rd cont args s).2.2 =
      [docker_cmd cont args, pull_config_cmd cont] ∨
    (run_docker_command E rd cont args s).2.2 =
      [docker_cmd cont args, pull_config_cmd cont, docker_cmd cont args] := by
  simp only [run_docker_command]
  repeat' split
  all_goals simp

/-- Claim C1 (counterexample): in a runtime whose first command fails with
"permission denied" and where a re-issued command would succeed, the
remediation layer issues the original argv only once (not twice) and
returns the first, failed result rather than the result of a retry. -/
theorem permission_denied_retry_counterexample :
    (run_docker_command envP "/repo" "c1" ["git", "pull"] 0).1 =
      .ok ⟨1, "", "permission denied"⟩ ∧
    ((run_docker_command envP "/repo" "c1" ["git", "pull"] 0).2.2.count
      (docker_cmd "c1" ["git", "pull"])) = 1 ∧
    (envP 2 (docker_cmd "c1" ["git", "pull"])).1 = .ok ⟨0, "ok", ""⟩ := by
  decide

/-- Claim C1 (amended): when the first execution fails with a
"permission denied" stderr (and no "dubious ownership" signature), the
remediation layer applies the `chown` remediation exactly once but does
NOT re-issue the original argv; the result returned to the caller is the
first, failed attempt. -/
theorem permission_denied_remediation_no_retry {σ : Type} (E : Env σ)
    (rd cont : String) (args : List String) (s s1 s2 : σ) (r fr : ExecResult)
    (hE : E s (docker_cmd cont args) = (.ok r, s1))
    (hrc : r.returncode ≠ 0)
    (hne : r.stderr ≠ "")
    (hdub : strContains r.stderr "dubious ownership" = false)
    (hperm : strContains r.stderr "permission denied" = true)
    (hfix : E s1 (fix_cmd rd cont) = (.ok fr, s2)) :
    run_docker_command E rd cont args s =
      (.ok r, s2, [docker_cmd cont args, fix_cmd rd cont]) := by
  simp [run_docker_command, hE, hfix, hrc, hne, hdub, hperm]

/-- Witness for the amended claim C1, at the concrete runtime `envP`. -/
theorem permission_denied_remediation_no_retry_witness :
    run_docker_command envP "/repo" "c1" ["git", "pull"] 0 =
      (.ok ⟨1, "", "permission denied"⟩, 2,
        [docker_cmd "c1" ["git", "pull"], fix_cmd "/repo" "c1"]) := by
  exact permission_denied_remediation_no_retry envP "/repo" "c1"
    ["git", "pull"] 0 1 2 ⟨1, "", "permission denied"⟩ ⟨0, "ok", ""⟩
    (by decide) (by decide) (by decide) (by decide) (by decide) (by decide)

/-- Claim C3: one call to the remediated runner issues the underlying
command at most twice — the executed-command trace is always one of six
shapes in which the original argv appears once or twice, never more; and
under a persistently failing "dubious ownership" stderr the trace is
exactly the original attempt, the one remediation, and one retry (no
loop). -/
theorem run_docker_command_at_most_two_attempts {σ : Type} (E : Env σ)
    (rd cont : String) (args : List String) (s : σ) :
    ((run_docker_command E rd cont args s).2.2 = [docker_cmd cont args] ∨
     (run_docker_command E rd cont args s).2.2 =
       [docker_cmd cont args, safe_cmd rd cont] ∨
     (run_docker_command E rd cont args s).2.2 =
       [docker_cmd cont args, safe_cmd rd cont, docker_cmd cont args] ∨
     (run_docker_command E rd cont args s).2.2 =
       [docker_cmd cont args, fix_cmd rd cont] ∨
     (run_docker_command E rd cont args s).2.2 =
       [docker_cmd cont args, pull_config_cmd cont] ∨
     (run_docker_command E rd cont args s).2.2 =
       [docker_cmd cont args, pull_config_cmd cont, docker_cmd cont args]) ∧
    ((∀ s0, persistent_dubious (E s0 (docker_cmd cont args)).1 = true) →
     (∀ s0, is_ok (E s0 (safe_cmd rd cont)).1 = true) →
     (run_docker_command E rd cont args s).2.2 =
       [docker_cmd cont args, safe_cmd rd cont, docker_cmd cont args]) := by
  constructor
  · exact run_docker_command_trace_shape E rd cont args s
  · intro hd hs
    simp only [run_docker_command]
    rcases h0 : E s (docker_cmd cont args) with ⟨v, s1⟩
    have hd0 := hd s
    rw [h0] at hd0
    cases v with
    | error e => simp [persistent_dubious] at hd0
    | ok r =>
      simp only [persistent_dubious] at hd0
      simp only [hd0, if_true]
      rcases h1 : E s1 (safe_cmd rd cont) with ⟨v2, s2⟩
      have hs1 := hs s1
      rw [h1] at hs1
      cases v2 with
      | error e => simp [is_ok] at hs1
      | ok r2 =>
        rcases h2 : E s2 (docker_cmd cont args) with ⟨v3, s3⟩
        cases v3 <;> simp [h2]

/-- Witness for claim C3, at the persistently failing runtime `envD`. -/
theorem run_docker_command_at_most_two_attempts_witness :
    (run_docker_command envD "/repo" "c3" ["git", "status"] ()).2.2 =
      [docker_cmd "c3" ["git", "status"], safe_cmd "/repo" "c3",
        docker_cmd "c3" ["git", "status"]] := by
  exact (run_docker_command_at_most_two_attempts envD "/repo" "c3"
    ["git", "status"] ()).2 (by decide) (by decide)

/-- Claim C5: a `submodule_update` whose underlying command fails returns
success carrying the warning text when the stderr contains
"No url found for submodule path", and otherwise returns failure with a
detail carrying the stderr. -/
theorem submodule_update_no_url_benign {σ : Type} (G : GitOperations)
    (E : Env σ) (cid path : String) (ur : Bool) (s : σ) (r : ExecResult)
    (h : (run_docker_command E G.repos_dir cid
        (submodule_update_args path ur) s).1 = .ok r)
    (hrc : r.returncode ≠ 0) :
    (strContains r.stderr "No url found for submodule path" = true →
      (submodule_update G E cid path ur s).1 =
        .ok (true, "Submodule configuration issue in container " ++ cid ++
          ": " ++ r.stderr)) ∧
    (strContains r.stderr "No url found for submodule path" = false →
      (submodule_update G E cid path ur s).1 =
        .ok (false, "Submodule update failed in container " ++ cid ++
          ": " ++ r.stderr)) := by
  constructor <;> intro hsig <;> simp [submodule_update, h, hrc, hsig]

/-- Witness for claim C5, at the concrete runtime `env5`: the "No url
found" failure is downgraded to success, the other failure is not. -/
theorem submodule_update_no_url_benign_witness :
    ((strContains "No url found for submodule path x"
        "No url found for submodule path" = true →
      (submodule_update ⟨"/repo", "u", "e"⟩ env5 "c5" "/r" false ()).1 =
        .ok (true, "Submodule configuration issue in container c5: " ++
          "No url found for submodule path x")) ∧
     (strContains "No url found for submodule path x"
        "No url found for submodule path" = false →
      (submodule_update ⟨"/repo", "u", "e"⟩ env5 "c5" "/r" false ()).1 =
        .ok (false, "Submodule update failed in container c5: " ++
          "No url found for submodule path x"))) ∧
    (submodule_update ⟨"/repo", "u", "e"⟩ env5 "c5" "/q" false ()).1 =
      .ok (false, "Submodule update failed in container c5: other error") := by
  constructor
  · exact submodule_update_no_url_benign ⟨"/repo", "u", "e"⟩ env5 "c5" "/r"
      false () ⟨1, "", "No url found for submodule path x"⟩
      (by decide) (by decide)
  · exact (submodule_update_no_url_benign ⟨"/repo", "u", "e"⟩ env5 "c5" "/q"
      false () ⟨1, "", "other error"⟩ (by decide) (by decide)).2 (by decide)

/-- Claim C9: `has_changes` returns true iff the status command's stripped
stdout is non-empty AND its exit code is zero; in particular a failing
status check yields false, never an error. -/
theorem has_changes_iff_nonblank_and_zero {σ : Type} (G : GitOperations)
    (E : Env σ) (cid path : String) (s : σ) (r : ExecResult)
    (h : (run_docker_command E G.repos_dir cid (status_args path) s).1 =
      .ok r) :
    (has_changes G E cid path s).1 =
      .ok (pyStrip r.stdout != "" && r.returncode == 0) ∧
    ((has_changes G E cid path s).1 = .ok true ↔
      (pyStrip r.stdout ≠ "" ∧ r.returncode = 0)) ∧
    (r.returncode ≠ 0 → (has_changes G E cid path s).1 = .ok false) := by
  refine ⟨by simp [has_changes, h], ?_, ?_⟩
  · simp [has_changes, h]
  · intro hrc
    simp [has_changes, h, hrc]

/-- Witness for claim C9, at the all-succeeding runtime `envW` (empty
stdout, exit code zero: no changes) and a failing-status scenario in
`env5`. -/
theorem has_changes_iff_nonblank_and_zero_witness :
    (has_changes ⟨"/r", "u", "e"⟩ envW "c" "/p" ()).1 =
      .ok (pyStrip "" != "" && (0 : Int) == 0) := by
  exact (has_changes_iff_nonblank_and_zero ⟨"/r", "u", "e"⟩ envW "c" "/p" ()
    ⟨0, "", ""⟩ (by decide)).1

/-- Claim C4: the orchestrator iterates containers in configuration order;
a failing container terminates the run with that container named in the
aggregate message and nothing after it is processed (the trace ends with
the failing container's trace); a succeeding container hands over to the
rest of the list; the empty tail yields the aggregate success; a
non-empty configuration is processed by exactly this loop; and the
aggregate is a success only if the first container succeeded. -/
theorem orchestrator_first_failure_aborts {σ : Type} (P : WebhookProcessor)
    (E : Env σ) (ts : String) (c : Container) (rest : List Container)
    (s : σ) (m : String) (s1 : σ) (t1 : List Ev) :
    (process_container P E ts c s = ((false, m), s1, t1) →
      container_loop P E ts (c :: rest) s =
        ((false, "Container " ++ c.name ++ ": " ++ m), s1, t1)) ∧
    (process_container P E ts c s = ((true, m), s1, t1) →
      container_loop P E ts (c :: rest) s =
        ((container_loop P E ts rest s1).1,
          (container_loop P E ts rest s1).2.1,
          t1 ++ (container_loop P E ts rest s1).2.2)) ∧
    container_loop P E ts ([] : List Container) s =
      ((true, "All containers processed successfully"), s, []) ∧
    (P.config.containers ≠ [] →
      process_all_containers P E ts s =
        container_loop P E ts P.config.containers s) ∧
    ((container_loop P E ts (c :: rest) s).1.1 = true →
      (process_container P E ts c s).1.1 = true) := by
  refine ⟨?_, ?_, by simp [container_loop], ?_, ?_⟩
  · intro h
    simp [container_loop, h]
  · intro h
    simp [container_loop, h]
  · intro h
    cases hco : P.config.containers with
    | nil => exact absurd hco h
    | cons hd tl => simp [process_all_containers, hco]
  · intro h
    by_cases hc : (process_container P E ts c s).1.1
    · exact hc
    · rw [Bool.not_eq_true] at hc
      simp [container_loop, hc] at h

/-- Witness for claim C4: the first container's workflow name resolves to
nothing, so its processor fails and the second container is never
reached. -/
theorem orchestrator_first_failure_aborts_witness :
    container_loop PW envW "t" [cW, cW2] () =
      ((false, "Container n1: Workflow \x27w\x27 not found"), (), []) := by
  exact (orchestrator_first_failure_aborts PW envW "t" cW [cW2] ()
    "Workflow \x27w\x27 not found" () []).1 (by decide)

/-- Claim C10: an empty container list yields the "No containers
configured" failure rather than vacuous success, and an exception raised
inside a container's processing is caught and converted into an
`ok=false` result for that container. -/
theorem orchestrator_empty_and_exception_handling {σ : Type}
    (P : WebhookProcessor) (E : Env σ) (ts : String) (cont : Container)
    (s s1 : σ) (e : String) (t : List Ev) :
    (P.config.containers = [] →
      process_all_containers P E ts s =
        ((false, "No containers configured"), s, [])) ∧
    (process_container_body P E ts cont s = (.error e, s1, t) →
      process_container P E ts cont s =
        ((false, "Error processing container " ++ cont.name ++ ": " ++ e),
          s1, t)) := by
  constructor
  · intro h
    simp [process_all_containers, h]
  · intro h
    simp [process_container, h]

/-- Witness for claim C10: the empty configuration `PE`, and the raising
runtime `envX` under which container `cx`'s pull raises "boom". -/
theorem orchestrator_empty_and_exception_handling_witness :
    process_all_containers PE envW "t" () =
      ((false, "No containers configured"), (), []) ∧
    process_container PX envX "t" cX () =
      ((false, "Error processing container nx: boom"), (),
        [Ev.opPull "/r" "b", Ev.run (docker_cmd "cx" (pull_args "/r" "b"))]) := by
  constructor
  · exact (orchestrator_empty_and_exception_handling PE envW "t" cX () ()
      "boom" []).1 (by decide)
  · exact (orchestrator_empty_and_exception_handling PX envX "t" cX () ()
      "boom" [Ev.opPull "/r" "b",
        Ev.run (docker_cmd "cx" (pull_args "/r" "b"))]).2 (by decide)

/-- Claim C2 (counterexample): in the concrete run `P2`/`env2`, the
checkout-and-merge of submodule `sub1` returns `ok=false`, yet the
container run does not abort: it reports overall success, still
processes the later submodule `sub2`, and still reaches the main
repository stage (the submodule-update event on the root). -/
theorem checkout_merge_failure_continues_counterexample :
    (checkout_and_merge P2.git_ops env2 "c2" "/repo/sub1" "b1" ()).1 =
      .ok (false, "Checkout failed: boom") ∧
    (process_container P2 env2 "t" cont2 ()).1 =
      (true, "Container processed successfully") ∧
    Ev.opHasChanges "/repo/sub2" ∈
      (process_container P2 env2 "t" cont2 ()).2.2 ∧
    Ev.opSubmoduleUpdate "/repo" false ∈
      (process_container P2 env2 "t" cont2 ()).2.2 := by
  decide

/-- Claim C2 (amended): an operation returning `ok=false` aborts the
container run — except the submodule push step's checkout-and-merge: its
failure is swallowed, the push is skipped, and the submodule is reported
as processed successfully (so later submodules and the main stage still
run); a failing push after a successful checkout-and-merge does abort. -/
theorem checkout_merge_failure_swallowed {σ : Type} (P : WebhookProcessor)
    (E : Env σ) (ts : String) (cont : Container) (sub : Submodule)
    (wf : Workflow) (s : σ) (m m2 pm : String) (hb : Bool)
    (hcm : wf.commit = false) (hpl : wf.pull = false)
    (hps : wf.push = true) (hscp : wf.submodule_commit_push = true)
    (hhc : (has_changes P.git_ops E cont.id
        (path_join cont.repos_dir sub.path) s).1 = .ok hb) :
    ((checkout_and_merge P.git_ops E cont.id
        (path_join cont.repos_dir sub.path) sub.branch
        (has_changes P.git_ops E cont.id
          (path_join cont.repos_dir sub.path) s).2.1).1 = .ok (false, m) →
      (_process_submodule P E ts cont sub wf s).1 =
        .ok (true, "Submodule processed successfully")) ∧
    ((checkout_and_merge P.git_ops E cont.id
        (path_join cont.repos_dir sub.path) sub.branch
        (has_changes P.git_ops E cont.id
          (path_join cont.repos_dir sub.path) s).2.1).1 = .ok (true, m2) →
      (push P.git_ops E cont.id (path_join cont.repos_dir sub.path)
        sub.branch
        (checkout_and_merge P.git_ops E cont.id
          (path_join cont.repos_dir sub.path) sub.branch
          (has_changes P.git_ops E cont.id
            (path_join cont.repos_dir sub.path) s).2.1).2.1).1 =
        .ok (false, pm) →
      (_process_submodule P E ts cont sub wf s).1 = .ok (false, pm)) := by
  constructor
  · intro h
    simp [_process_submodule, op_step, hhc, hscp, hcm, hpl, hps, h]
  · intro h hp
    simp [_process_submodule, op_step, hhc, hscp, hcm, hpl, hps, h, hp]

/-- Witness for the amended claim C2, at the concrete run `P2`/`env2`. -/
theorem checkout_merge_failure_swallowed_witness :
    (_process_submodule P2 env2 "t" cont2 ⟨"sub1", "b1"⟩ wf2 ()).1 =
      .ok (true, "Submodule processed successfully") := by
  exact (checkout_merge_failure_swallowed P2 env2 "t" cont2 ⟨"sub1", "b1"⟩
    wf2 () "Checkout failed: boom" "" "" false (by decide) (by decide)
    (by decide) (by decide) (by decide)).1 (by decide)

lemma mem_run_docker_trace {σ : Type} {E : Env σ} {rd cid : String}
    {args : List String} {s : σ} {c : List String}
    (h : c ∈ (run_docker_command E rd cid args s).2.2) :
    c = docker_cmd cid args ∨ c = safe_cmd rd cid ∨ c = fix_cmd rd cid ∨
    c = pull_config_cmd cid := by
  rcases run_docker_command_trace_shape E rd cid args s with
    h1 | h1 | h1 | h1 | h1 | h1 <;> rw [h1] at h <;> simp at h <;> tauto

lemma mem_raw_run_docker {σ : Type} {E : Env σ} {rd cid : String}
    {args : List String} {s : σ} {e : Ev}
    (h : e ∈ rawEv (run_docker_command E rd cid args s).2.2) :
    e = Ev.run (docker_cmd cid args) ∨ e = Ev.run (safe_cmd rd cid) ∨
    e = Ev.run (fix_cmd rd cid) ∨ e = Ev.run (pull_config_cmd cid) := by
  simp only [rawEv, List.mem_map] at h
  obtain ⟨c, hc, rfl⟩ := h
  rcases mem_run_docker_trace hc with rfl | rfl | rfl | rfl <;> tauto

lemma mem_has_changes_trace {σ : Type} {G : GitOperations} {E : Env σ}
    {cid path : String} {s : σ} {e : Ev}
    (h : e ∈ (has_changes G E cid path s).2.2) :
    e = Ev.opHasChanges path ∨
    e = Ev.run (docker_cmd cid (status_args path)) ∨
    e = Ev.run (safe_cmd G.repos_dir cid) ∨
    e = Ev.run (fix_cmd G.repos_dir cid) ∨
    e = Ev.run (pull_config_cmd cid) := by
  rcases ho : (run_docker_command E G.repos_dir cid (status_args path) s).1
    with er | r <;> simp only [has_changes, ho] at h <;>
    rcases List.mem_cons.mp h with rfl | hm
  · tauto
  · rcases mem_raw_run_docker hm with rfl | rfl | rfl | rfl <;> tauto
  · tauto
  · rcases mem_raw_run_docker hm with rfl | rfl | rfl | rfl <;> tauto

lemma mem_pull_trace {σ : Type} {G : GitOperations} {E : Env σ}
    {cid path br : String} {s : σ} {e : Ev}
    (h : e ∈ (pull G E cid path br s).2.2) :
    e = Ev.opPull path br ∨
    e = Ev.run (docker_cmd cid (pull_args path br)) ∨
    e = Ev.run (safe_cmd G.repos_dir cid) ∨
    e = Ev.run (fix_cmd G.repos_dir cid) ∨
    e = Ev.run (pull_config_cmd cid) := by
  have hshape : (pull G E cid path br s).2.2 = Ev.opPull path br ::
      rawEv (run_docker_command E G.repos_dir cid (pull_args path br) s).2.2
      := by
    simp only [pull]
    repeat' split
    all_goals rfl
  rw [hshape] at h
  rcases List.mem_cons.mp h with rfl | hm
  · tauto
  · rcases mem_raw_run_docker hm with rfl | rfl | rfl | rfl <;> tauto

/-- Claim C7: a submodule with no changes, under a workflow that does not
commit/push submodules, triggers only the status check and a pull — its
trace contains no commit, checkout-and-merge, or push events — and on a
successful pull the submodule reports success and the loop continues to
the next submodule. -/
theorem submodule_no_changes_pull_only {σ : Type} (P : WebhookProcessor)
    (E : Env σ) (ts : String) (cont : Container) (sub : Submodule)
    (wf : Workflow) (s : σ) (m : String) (rest : List Submodule)
    (hscp : wf.submodule_commit_push = false)
    (hhc : (has_changes P.git_ops E cont.id
        (path_join cont.repos_dir sub.path) s).1 = .ok false) :
    (∀ e ∈ (_process_submodule P E ts cont sub wf s).2.2,
      e = Ev.opHasChanges (path_join cont.repos_dir sub.path) ∨
      e = Ev.opPull (path_join cont.repos_dir sub.path) sub.branch ∨
      e = Ev.run (docker_cmd cont.id
        (status_args (path_join cont.repos_dir sub.path))) ∨
      e = Ev.run (docker_cmd cont.id
        (pull_args (path_join cont.repos_dir sub.path) sub.branch)) ∨
      e = Ev.run (safe_cmd P.git_ops.repos_dir cont.id) ∨
      e = Ev.run (fix_cmd P.git_ops.repos_dir cont.id) ∨
      e = Ev.run (pull_config_cmd cont.id)) ∧
    ((pull P.git_ops E cont.id (path_join cont.repos_dir sub.path)
        sub.branch
        (has_changes P.git_ops E cont.id
          (path_join cont.repos_dir sub.path) s).2.1).1 = .ok (true, m) →
      (_process_submodule P E ts cont sub wf s).1 =
        .ok (true, "Submodule pulled successfully")) ∧
    ((_process_submodule P E ts cont sub wf s).1 = .ok (true, m) →
      submodule_loop P E ts cont wf (sub :: rest) s =
        ((submodule_loop P E ts cont wf rest
            (_process_submodule P E ts cont sub wf s).2.1).1,
          (submodule_loop P E ts cont wf rest
            (_process_submodule P E ts cont sub wf s).2.1).2.1,
          (_process_submodule P E ts cont sub wf s).2.2 ++
            (submodule_loop P E ts cont wf rest
              (_process_submodule P E ts cont sub wf s).2.1).2.2)) := by
  refine ⟨?_, ?_, ?_⟩
  · intro e he
    simp only [_process_submodule, hhc, hscp] at he
    rcases hp : (pull P.git_ops E cont.id
        (path_join cont.repos_dir sub.path) sub.branch
        (has_changes P.git_ops E cont.id
          (path_join cont.repos_dir sub.path) s).2.1).1 with er | pr
    · simp only [hp] at he
      rcases List.mem_append.mp he with h1 | h1
      · rcases mem_has_changes_trace h1 with rfl | rfl | rfl | rfl | rfl <;>
          tauto
      · rcases mem_pull_trace h1 with rfl | rfl | rfl | rfl | rfl <;> tauto
    · by_cases hb2 : pr.1 <;> simp only [hp, hb2] at he <;>
        simp only [Bool.not_true, Bool.not_false, if_true, if_false] at he <;>
        rcases List.mem_append.mp he with h1 | h1
      · rcases mem_has_changes_trace h1 with rfl | rfl | rfl | rfl | rfl <;>
          tauto
      · rcases mem_pull_trace h1 with rfl | rfl | rfl | rfl | rfl <;> tauto
      · rcases mem_has_changes_trace h1 with rfl | rfl | rfl | rfl | rfl <;>
          tauto
      · rcases mem_pull_trace h1 with rfl | rfl | rfl | rfl | rfl <;> tauto
  · intro h
    simp [_process_submodule, hhc, hscp, h]
  · intro h
    simp [submodule_loop, h]

/-- Witness for claim C7, at the all-succeeding runtime `envW` with the
"main"-style workflow `wf7` and container `cont7`. -/
theorem submodule_no_changes_pull_only_witness :
    (_process_submodule P7 envW "t" cont7 ⟨"s1", "b1"⟩ wf7 ()).1 =
      .ok (true, "Submodule pulled successfully") := by
  exact (submodule_no_changes_pull_only P7 envW "t" cont7 ⟨"s1", "b1"⟩ wf7 ()
    "Pull successful" [] (by decide) (by decide)).2.1 (by decide)

@[simp] lemma commit_free_nil : commit_free ([] : List Ev) := by
  intro e he
  simp at he

@[simp] lemma commit_free_cons {e : Ev} {t : List Ev} :
    commit_free (e :: t) ↔ is_commit_ev e = false ∧ commit_free t := by
  simp [commit_free]

@[simp] lemma commit_free_append {t1 t2 : List Ev} :
    commit_free (t1 ++ t2) ↔ commit_free t1 ∧ commit_free t2 := by
  unfold commit_free
  exact List.forall_mem_append

@[simp] lemma commit_free_rawEv (t : List (List String)) :
    commit_free (rawEv t) := by
  intro e he
  simp only [rawEv, List.mem_map] at he
  obtain ⟨c, hc, rfl⟩ := he
  rfl

@[simp] lemma has_changes_commit_free {σ : Type} (G : GitOperations)
    (E : Env σ) (cid path : String) (s : σ) :
    commit_free (has_changes G E cid path s).2.2 := by
  simp only [has_changes]
  repeat' split
  all_goals simp [is_commit_ev]

@[simp] lemma setup_git_user_commit_free {σ : Type} (G : GitOperations)
    (E : Env σ) (cid path : String) (s : σ) :
    commit_free (setup_git_user G E cid path s).2.2 := by
  simp only [setup_git_user]
  repeat' split
  all_goals simp [is_commit_ev]

@[simp] lemma add_all_commit_free {σ : Type} (G : GitOperations)
    (E : Env σ) (cid path : String) (s : σ) :
    commit_free (add_all G E cid path s).2.2 := by
  simp only [add_all]
  repeat' split
  all_goals simp [is_commit_ev]

@[simp] lemma pull_commit_free {σ : Type} (G : GitOperations) (E : Env σ)
    (cid path br : String) (s : σ) :
    commit_free (pull G E cid path br s).2.2 := by
  simp only [pull]
  repeat' split
  all_goals simp [is_commit_ev]

@[simp] lemma push_commit_free {σ : Type} (G : GitOperations) (E : Env σ)
    (cid path br : String) (s : σ) :
    commit_free (push G E cid path br s).2.2 := by
  simp only [push]
  repeat' split
  all_goals simp [is_commit_ev]

@[simp] lemma reset_hard_commit_free {σ : Type} (G : GitOperations)
    (E : Env σ) (cid path br : String) (s : σ) :
    commit_free (reset_hard G E cid path br s).2.2 := by
  simp only [reset_hard]
  repeat' split
  all_goals simp [is_commit_ev]

@[simp] lemma submodule_update_commit_free {σ : Type} (G : GitOperations)
    (E : Env σ) (cid path : String) (ur : Bool) (s : σ) :
    commit_free (submodule_update G E cid path ur s).2.2 := by
  simp only [submodule_update]
  repeat' split
  all_goals simp [is_commit_ev]

@[simp] lemma checkout_and_merge_commit_free {σ : Type} (G : GitOperations)
    (E : Env σ) (cid path br : String) (s : σ) :
    commit_free (checkout_and_merge G E cid path br s).2.2 := by
  simp only [checkout_and_merge]
  repeat' split
  all_goals simp [is_commit_ev]

lemma op_step_commit_free {σ : Type}
    {o : Except String (Bool × String) × σ × List Ev}
    {k : σ → Except String (Bool × String) × σ × List Ev}
    (ho : commit_free o.2.2) (hk : ∀ s0, commit_free (k s0).2.2) :
    commit_free (op_step o k).2.2 := by
  unfold op_step
  repeat' split
  all_goals simp_all [hk o.2.1]

lemma process_submodule_commit_free {σ : Type} (P : WebhookProcessor)
    (E : Env σ) (ts : String) (cont : Container) (sub : Submodule)
    (wf : Workflow) (s : σ) (hcm : wf.commit = false) :
    commit_free (_process_submodule P E ts cont sub wf s).2.2 := by
  simp only [_process_submodule]
  rcases h1 : (has_changes P.git_ops E cont.id
      (path_join cont.repos_dir sub.path) s).1 with e1 | hb
  · simp [h1]
  · simp only [h1]
    split
    · repeat' split
      all_goals simp
    · simp only []
      rw [commit_free_append]
      refine ⟨by simp, ?_⟩
      apply op_step_commit_free
      · simp [hcm]
      · intro s2
        apply op_step_commit_free
        · split <;> simp
        · intro s3
          repeat' split
          all_goals simp

lemma submodule_loop_commit_free {σ : Type} (P : WebhookProcessor)
    (E : Env σ) (ts : String) (cont : Container) (wf : Workflow)
    (hcm : wf.commit = false) : ∀ (subs : List Submodule) (s : σ),
    commit_free (submodule_loop P E ts cont wf subs s).2.2 := by
  intro subs
  induction subs with
  | nil => intro s; simp [submodule_loop]
  | cons sub rest ih =>
    intro s
    have hps := process_submodule_commit_free P E ts cont sub wf s hcm
    have hih := ih (_process_submodule P E ts cont sub wf s).2.1
    simp only [submodule_loop]
    repeat' split
    all_goals simp_all

lemma process_main_repo_commit_free {σ : Type} (P : WebhookProcessor)
    (E : Env σ) (ts : String) (cont : Container) (wf : Workflow) (s : σ)
    (hcm : wf.commit = false) :
    commit_free (_process_main_repo P E ts cont wf s).2.2 := by
  simp only [_process_main_repo]
  apply op_step_commit_free
  · repeat' split
    all_goals simp
  · intro s1
    apply op_step_commit_free
    · split <;> simp
    · intro s2
      apply op_step_commit_free
      · simp [hcm]
      · intro s3
        apply op_step_commit_free
        · split <;> simp
        · intro s4
          apply op_step_commit_free
          · split <;> simp
          · intro s5
            simp

lemma process_container_body_commit_free {σ : Type} (P : WebhookProcessor)
    (E : Env σ) (ts : String) (cont : Container) (wf : Workflow) (s : σ)
    (hwf : P.config.get_workflow cont.workflow = some wf)
    (hcm : wf.commit = false) :
    commit_free (process_container_body P E ts cont s).2.2 := by
  have hml := submodule_loop_commit_free P E ts cont wf hcm cont.submodules s
  have hmr := fun s0 => process_main_repo_commit_free P E ts cont wf s0 hcm
  simp only [process_container_body, hwf]
  repeat' split
  all_goals simp_all

/-- Claim C8: under a workflow with `commit = false`, a container's run
never enters the `commit` operation — neither for the main repository
nor for any submodule. -/
theorem workflow_no_commit_never_commits {σ : Type} (P : WebhookProcessor)
    (E : Env σ) (ts : String) (cont : Container) (wf : Workflow) (s : σ)
    (hwf : P.config.get_workflow cont.workflow = some wf)
    (hcm : wf.commit = false) :
    commit_free (process_container P E ts cont s).2.2 := by
  unfold process_container
  have hb := process_container_body_commit_free P E ts cont wf s hwf hcm
  rcases hbody : process_container_body P E ts cont s with ⟨v, s1, t⟩
  rw [hbody] at hb
  cases v <;> simpa using hb

/-- Witness for claim C8: a whole container run under `wf7`
(`commit = false`) is commit-free. -/
theorem workflow_no_commit_never_commits_witness :
    commit_free (process_container P7 envW "t" cont7 ()).2.2 := by
  exact workflow_no_commit_never_commits P7 envW "t" cont7 wf7 ()
    (by decide) (by decide)

/-- Claim C6: when `has_changes` reports false, `commit` short-circuits to
`ok=true, "No changes to commit"` having run nothing beyond the status
check — its trace holds no identity-configuration, add, or raw
`git commit` event; hence, in a runtime where the status check is
state-pure and a successful raw `git commit` leaves a changeless status,
a second `commit` immediately after a successful one returns
`ok=true, "No changes to commit"`. -/
theorem commit_no_changes_shortcircuit_idempotent {σ : Type}
    (G : GitOperations) (E : Env σ) (cid path msg : String) (s : σ)
    (d : String) (s4 : σ) (tr : List Ev) :
    ((has_changes G E cid path s).1 = .ok false →
      commit G E cid path msg s =
        (.ok (true, "No changes to commit"),
          (has_changes G E cid path s).2.1,
          Ev.opCommit path msg :: (has_changes G E cid path s).2.2) ∧
      ∀ e ∈ Ev.opCommit path msg :: (has_changes G E cid path s).2.2,
        e = Ev.opCommit path msg ∨ e = Ev.opHasChanges path ∨
        e = Ev.run (docker_cmd cid (status_args path)) ∨
        e = Ev.run (safe_cmd G.repos_dir cid) ∨
        e = Ev.run (fix_cmd G.repos_dir cid) ∨
        e = Ev.run (pull_config_cmd cid)) ∧
    (commit G E cid path msg s = (.ok (true, d), s4, tr) →
      (∀ s0, (has_changes G E cid path s0).2.1 = s0) →
      (∀ s0 r s0x t0,
        run_docker_command E G.repos_dir cid (commit_args path msg) s0 =
          (.ok r, s0x, t0) → r.returncode = 0 →
        (has_changes G E cid path s0x).1 = .ok false) →
      (commit G E cid path msg s4).1 = .ok (true, "No changes to commit")) := by
  constructor
  · intro hhc
    constructor
    · simp [commit, hhc]
    · intro e he
      rcases List.mem_cons.mp he with rfl | hm
      · tauto
      · rcases mem_has_changes_trace hm with rfl | rfl | rfl | rfl | rfl <;>
          tauto
  · intro h1 hpure hclean
    rcases hh : (has_changes G E cid path s).1 with e0 | hb
    · simp only [commit, hh] at h1
      simp at h1
    · cases hb with
      | false =>
        simp only [commit, hh, Bool.not_false, if_true] at h1
        have hs4 : s4 = (has_changes G E cid path s).2.1 := by
          have hc2 := congrArg (fun x => x.2.1) h1
          simpa using hc2.symm
        rw [hs4, hpure s]
        simp [commit, hh]
      | true =>
        simp only [commit, hh, Bool.not_true, Bool.false_eq_true,
          if_false] at h1
        rcases hsu : (setup_git_user G E cid path
            (has_changes G E cid path s).2.1).1 with e1 | su
        · simp only [hsu] at h1
          simp at h1
        · simp only [hsu] at h1
          cases hsu1 : su.1 with
          | false =>
            simp only [hsu1, Bool.not_false, if_true] at h1
            simp at h1
          | true =>
            simp only [hsu1, Bool.not_true, Bool.false_eq_true,
              if_false] at h1
            rcases had : (add_all G E cid path
                (setup_git_user G E cid path
                  (has_changes G E cid path s).2.1).2.1).1 with e2 | ad
            · simp only [had] at h1
              simp at h1
            · simp only [had] at h1
              cases had1 : ad.1 with
              | false =>
                simp only [had1, Bool.not_false, if_true] at h1
                simp at h1
              | true =>
                simp only [had1, Bool.not_true, Bool.false_eq_true,
                  if_false] at h1
                rcases hrun : run_docker_command E G.repos_dir cid
                    (commit_args path msg)
                    (add_all G E cid path
                      (setup_git_user G E cid path
                        (has_changes G E cid path s).2.1).2.1).2.1
                  with ⟨v, sx, tx⟩
                simp only [hrun] at h1
                cases v with
                | error e3 => simp at h1
                | ok r =>
                  cases hrc : (r.returncode != 0) with
                  | true =>
                    simp only [hrc, if_true] at h1
                    simp at h1
                  | false =>
                    simp only [hrc, Bool.false_eq_true, if_false] at h1
                    have hs4 : s4 = sx := by
                      have hc2 := congrArg (fun x => x.2.1) h1
                      simpa using hc2.symm
                    have hrc0 : r.returncode = 0 := by
                      simpa using hrc
                    have hcl := hclean _ r sx tx hrun hrc0
                    rw [hs4]
                    simp [commit, hcl]

/-- Witness for claim C6, in the runtime `envC`: a successful commit from
the dirty state lands in the clean state, where a second commit is the
"No changes to commit" no-op. -/
theorem commit_no_changes_shortcircuit_idempotent_witness :
    commit GC envC "c" "/r" "m" false =
      (.ok (true, "No changes to commit"), false,
        [Ev.opCommit "/r" "m", Ev.opHasChanges "/r",
          Ev.run (docker_cmd "c" (status_args "/r"))]) ∧
    (commit GC envC "c" "/r" "m" false).1 =
      .ok (true, "No changes to commit") := by
  constructor
  · have h := (commit_no_changes_shortcircuit_idempotent GC envC "c" "/r"
      "m" false "" false []).1 (by decide)
    rw [h.1]
    decide
  · apply (commit_no_changes_shortcircuit_idempotent GC envC "c" "/r" "m"
      true "Commit successful" false
      (commit GC envC "c" "/r" "m" true).2.2).2
    · have hfst : (commit GC envC "c" "/r" "m" true).1 =
          .ok (true, "Commit successful") := by decide
      have hsnd : (commit GC envC "c" "/r" "m" true).2.1 = false := by
        decide
      have heta : commit GC envC "c" "/r" "m" true =
          ((commit GC envC "c" "/r" "m" true).1,
            (commit GC envC "c" "/r" "m" true).2.1,
            (commit GC envC "c" "/r" "m" true).2.2) := rfl
      rw [hfst, hsnd] at heta
      exact heta
    · intro s0
      cases s0 <;> decide
    · intro s0 r s0x t0 h hrc
      have hfx : ∀ s1 : Bool, (run_docker_command envC GC.repos_dir "c"
          (commit_args "/r" "m") s1).2.1 = false := by decide
      have hsx : s0x = false := by
        have hc2 := congrArg (fun x => x.2.1) h
        simp only at hc2
        rw [← hc2]
        exact hfx s0
      rw [hsx]
      decide

end GitWebhook
